import Mathlib

/-!
Verification of the scraping wrapper (src/scraping_wrapper.rs).

The Rust code drives a remote browser through the headless_chrome crate.
We embed it shallowly: every driver primitive (navigate, element wait,
click, type, ...) is an external collaborator, modelled by a `Driver`
record of pure response functions; a computation is a function from the
current event trace (the `World`) to an `Outcome` paired with the
extended trace.  Rust `Result` errors become `Outcome.err`, Rust panics
(`unwrap` on `None`) become `Outcome.panicked`, which no combinator
catches.  Machine integers (`u8` retry counts, `i8` indices, `u16`
ports) are modelled by `Nat`/`Int`; the code never exercises wrap-around
on them (the `retries - 1` subtraction is only reached when
`retries >= 1`).
-/

/-- Errors carried by `Result<_, Box<dyn Error>>` in the Rust code: either a
string converted with `.into()` / `.ok_or(...)`, or an opaque error coming
from an external collaborator, tagged by a code. -/
inductive RustError where
  | strErr : String → RustError
  | ext : Nat → RustError
deriving DecidableEq

/-- Result of running a piece of Rust code: normal return, error return, or
a panic (which unwinds past every caller). -/
inductive Outcome (α : Type) where
  | ok : α → Outcome α
  | err : RustError → Outcome α
  | panicked : String → Outcome α
deriving DecidableEq

/-- `true` exactly when the outcome is an error return (`Err` in Rust);
panics and successes are not error returns. -/
def Outcome.isErr {α : Type} : Outcome α → Bool
  | Outcome.err _ => true
  | _ => false

/-- Observable events of a run: thread sleeps and calls into the browser
driver.  Elements are identified by a numeric handle. -/
inductive Event where
  | sleep : Nat → Event
  | navigate : String → Event
  | waitUntilNavigated : Event
  | waitForElement : String → Nat → Event
  | waitForXPath : String → Nat → Event
  | scrollIntoView : Nat → Event
  | clickElem : Nat → Event
  | typeInto : Nat → String → Event
  | innerTextCall : Nat → Event
deriving DecidableEq

/-- The trace of events performed so far, oldest first. -/
abbrev World : Type := List Event

/-- An effectful computation: consumes the trace so far, returns an outcome
and the extended trace. -/
abbrev EffM (α : Type) : Type := World → Outcome α × World

/-- Return a value without performing any event. -/
def EffM.pure {α : Type} (a : α) : EffM α := fun w => (Outcome.ok a, w)

/-- Sequencing: errors and panics short-circuit, as `?` and unwinding do in
Rust. -/
def EffM.bind {α β : Type} (x : EffM α) (f : α → EffM β) : EffM β := fun w =>
  match x w with
  | (Outcome.ok a, w2) => f a w2
  | (Outcome.err e, w2) => (Outcome.err e, w2)
  | (Outcome.panicked m, w2) => (Outcome.panicked m, w2)

/-- Behaviour of the external browser driver.  Each response function also
receives the length of the trace at the moment of the call, so an
environment may answer differently on later calls (a flaky page). -/
structure Driver where
  navigate : String → Nat → Except RustError Unit
  waitUntilNavigated : Nat → Except RustError Unit
  waitForElement : String → Nat → Except RustError Nat
  waitForXPath : String → Nat → Except RustError Nat
  scrollIntoView : Nat → Nat → Except RustError Unit
  clickElem : Nat → Nat → Except RustError Unit
  typeInto : Nat → String → Nat → Except RustError Unit
  innerText : Nat → Nat → Except RustError String

/-- Perform one driver call: log its event and return the driver's answer
for the current instant. -/
def prim {α : Type} (ev : Event) (res : Nat → Except RustError α) : EffM α := fun w =>
  match res w.length with
  | Except.ok a => (Outcome.ok a, w ++ [ev])
  | Except.error e => (Outcome.err e, w ++ [ev])

/-- `std::thread::sleep` for the given number of seconds. -/
def sleepEff (secs : Nat) : EffM Unit := fun w => (Outcome.ok (), w ++ [Event.sleep secs])

/-- Panic message of `Option::unwrap` on `None`. -/
def panicUnwrapMsg : String := "called Option::unwrap() on a None value"

/-- `.unwrap()` on an `Option`: returns the value or panics. -/
def unwrapOpt {α : Type} : Option α → EffM α
  | some a => fun w => (Outcome.ok a, w)
  | none => fun w => (Outcome.panicked panicUnwrapMsg, w)

/-- Error message returned by `retry` when the attempt budget is zero
(the only way to reach the message in the source). -/
def retryExhaustedMsg : String := "リトライ回数を超えました"

/-- The loop of `retry` (src/scraping_wrapper.rs:103-119), indexed by the
number of remaining attempts (`retries - attempts` in the source).  On a
failed attempt with at least one further attempt remaining, the thread
sleeps the full `delay` and retries; the final attempt's error is returned
as is; a zero budget yields the generic exhaustion error without running
the task.  A panic inside the task unwinds out immediately. -/
def retryGo {α : Type} (task : EffM α) (delay : Nat) : Nat → EffM α
  | 0 => fun w => (Outcome.err (RustError.strErr retryExhaustedMsg), w)
  | remaining + 1 => fun w =>
    match task w with
    | (Outcome.ok r, w2) => (Outcome.ok r, w2)
    | (Outcome.panicked m, w2) => (Outcome.panicked m, w2)
    | (Outcome.err e, w2) =>
      match remaining with
      | 0 => (Outcome.err e, w2)
      | r + 1 => retryGo task delay (r + 1) (w2 ++ [Event.sleep delay])

/-- `retry(task, retries, delay)` from src/scraping_wrapper.rs:103-119. -/
def retry {α : Type} (task : EffM α) (retries delay : Nat) : EffM α :=
  retryGo task delay retries

/-- `HashMap::get` on the selector registry, modelled as lookup in an
association list with distinct keys. -/
def hashMapGet (m : List (String × String)) (k : String) : Option String :=
  match m with
  | [] => none
  | (k2, v) :: rest => if k2 = k then some v else hashMapGet rest k

/-- `ScrapingWrapper::go` (src/scraping_wrapper.rs:167-176):
`navigate_to(url)?.wait_until_navigated()?`, retried 5 times with a 2s
delay. -/
def ScrapingWrapper.go (d : Driver) (url : String) : EffM Unit :=
  retry
    (EffM.bind (prim (Event.navigate url) (d.navigate url)) (fun _ =>
      prim Event.waitUntilNavigated d.waitUntilNavigated))
    5 2

/-- `ScrapingWrapper::get_dom` (src/scraping_wrapper.rs:187-198): inside the
retried closure, `self.dom_defs.get(target).unwrap()` (a panic on a missing
key), then a 1-second element wait, then scroll into view. -/
def ScrapingWrapper.get_dom (d : Driver) (dom_defs : List (String × String))
    (target : String) : EffM Nat :=
  retry
    (EffM.bind (unwrapOpt (hashMapGet dom_defs target)) (fun selector =>
      EffM.bind (prim (Event.waitForElement selector 1) (d.waitForElement selector))
        (fun element =>
          EffM.bind (prim (Event.scrollIntoView element) (d.scrollIntoView element)) (fun _ =>
            EffM.pure element))))
    5 2

/-- `ScrapingWrapper::click` (src/scraping_wrapper.rs:201-210): click the
element, sleep one second, then `wait_until_navigated`, the whole action
retried 5 times with a 2s delay. -/
def ScrapingWrapper.click (d : Driver) (element : Nat) : EffM Unit :=
  retry
    (EffM.bind (prim (Event.clickElem element) (d.clickElem element)) (fun _ =>
      EffM.bind (sleepEff 1) (fun _ =>
        prim Event.waitUntilNavigated d.waitUntilNavigated)))
    5 2

/-- `ScrapingWrapper::get_inner_text` (src/scraping_wrapper.rs:213-221):
`get_dom` followed by `get_inner_text`, the pair wrapped in a second
`retry(5, 2)`. -/
def ScrapingWrapper.get_inner_text (d : Driver) (dom_defs : List (String × String))
    (target : String) : EffM String :=
  retry
    (EffM.bind (ScrapingWrapper.get_dom d dom_defs target) (fun element =>
      prim (Event.innerTextCall element) (d.innerText element)))
    5 2

/-- `ScrapingWrapper::fill_textbox` (src/scraping_wrapper.rs:224-231):
`element.type_into(&content)`, retried 5 times with a 2s delay. -/
def ScrapingWrapper.fill_textbox (d : Driver) (element : Nat) (content : String) : EffM Unit :=
  retry (prim (Event.typeInto element content) (d.typeInto element content)) 5 2

/-- A single quote character, used inside built XPath strings. -/
def squote : String := String.singleton (Char.ofNat 39)

/-- The XPath string built by `get_dom_by_text`
(src/scraping_wrapper.rs:244-247). -/
def buildXPath (tag text : String) (index : Int) : String :=
  "(//" ++ tag ++ "[normalize-space(text())=" ++ squote ++ text ++ squote ++ "])["
    ++ toString index ++ "]"

/-- `ScrapingWrapper::get_dom_by_text` (src/scraping_wrapper.rs:234-256):
defaults the tag to "*" and the index to 1, builds the XPath, waits for it
with a 1-second timeout, scrolls into view; retried 5 times with a 2s
delay. -/
def ScrapingWrapper.get_dom_by_text (d : Driver) (search_text : String)
    (tag_name : Option String) (index : Option Int) : EffM Nat :=
  retry
    (fun w =>
      let t := tag_name.getD "*"
      let i := index.getD 1
      (EffM.bind (prim (Event.waitForXPath (buildXPath t search_text i) 1)
          (d.waitForXPath (buildXPath t search_text i))) (fun element =>
        EffM.bind (prim (Event.scrollIntoView element) (d.scrollIntoView element)) (fun _ =>
          EffM.pure element))) w)
    5 2

/-- Operation kinds (src/scraping_wrapper.rs:96-100). -/
inductive OperationMethod where
  | Go
  | Click
  | Fill
deriving DecidableEq

/-- An operation of a sequence (src/scraping_wrapper.rs:88-92). -/
structure Operation where
  method : OperationMethod
  target : String
  content : Option String

/-- The body of one iteration of `operate`'s loop
(src/scraping_wrapper.rs:266-280): dispatch on the operation kind; a `Fill`
with absent content matches no `if let` branch and does nothing. -/
def ScrapingWrapper.execOp (d : Driver) (dom_defs : List (String × String))
    (operation : Operation) : EffM Unit :=
  match operation.method with
  | OperationMethod.Go => ScrapingWrapper.go d operation.target
  | OperationMethod.Click =>
    EffM.bind (ScrapingWrapper.get_dom d dom_defs operation.target) (fun element =>
      ScrapingWrapper.click d element)
  | OperationMethod.Fill =>
    match operation.content with
    | some content =>
      EffM.bind (ScrapingWrapper.get_dom d dom_defs operation.target) (fun element =>
        ScrapingWrapper.fill_textbox d element content)
    | none => EffM.pure ()

/-- `ScrapingWrapper::operate` (src/scraping_wrapper.rs:264-283): run the
operations in order; `?` aborts at the first error. -/
def ScrapingWrapper.operate (d : Driver) (dom_defs : List (String × String)) :
    List Operation → EffM Unit
  | [] => EffM.pure ()
  | operation :: rest =>
    EffM.bind (ScrapingWrapper.execOp d dom_defs operation) (fun _ =>
      ScrapingWrapper.operate d dom_defs rest)

/-- Modelled from the spec (testable properties): under a policy of `n`
attempts, an always-failing action is invoked once per attempt with a full
sleep of the fixed delay between consecutive attempts, and the final
attempt's result is returned; a zero budget yields the generic exhaustion
error without any invocation. -/
def specFailingRun {α : Type} (task : EffM α) (delay : Nat) : Nat → EffM α
  | 0 => fun w => (Outcome.err (RustError.strErr retryExhaustedMsg), w)
  | 1 => task
  | n + 2 => fun w => specFailingRun task delay (n + 1) ((task w).2 ++ [Event.sleep delay])

/-- The action returns an error (not a success, not a panic) on every call. -/
def AlwaysFails {α : Type} (task : EffM α) : Prop :=
  ∀ w, ((task w).1).isErr = true

/-- Trace appended by a retried action failing identically on each of `n`
attempts, with the inter-attempt sleeps interleaved. -/
def constFailTrace (ts : List Event) (delay : Nat) : Nat → List Event
  | 0 => []
  | 1 => ts
  | n + 2 => ts ++ Event.sleep delay :: constFailTrace ts delay (n + 1)

lemma retryGo_first_ok {α : Type} (task : EffM α) (a : α) (w w2 : World) (delay n : Nat)
    (h : task w = (Outcome.ok a, w2)) :
    retryGo task delay (n + 1) w = (Outcome.ok a, w2) := by
  rw [retryGo.eq_2]
  simp only [h]

lemma retryGo_panic {α : Type} (task : EffM α) (m : String) (w w2 : World) (delay n : Nat)
    (h : task w = (Outcome.panicked m, w2)) :
    retryGo task delay (n + 1) w = (Outcome.panicked m, w2) := by
  rw [retryGo.eq_2]
  simp only [h]

lemma retryGo_const_err {α : Type} (task : EffM α) (e : RustError) (ts : List Event)
    (delay : Nat) (h : ∀ w, task w = (Outcome.err e, w ++ ts)) :
    ∀ n w, retryGo task delay (n + 1) w
      = (Outcome.err e, w ++ constFailTrace ts delay (n + 1)) := by
  intro n
  induction n with
  | zero =>
    intro w
    rw [retryGo.eq_2]
    simp only [h w, constFailTrace]
  | succ n ih =>
    intro w
    rw [retryGo.eq_2]
    simp only [h w]
    rw [ih]
    simp [constFailTrace]

/-- Claim C2: with `N ≥ 1` attempts and delay `D`, an action that fails on
every call is invoked exactly `N` times with a full sleep of `D` between
consecutive attempts (`N - 1` sleeps in all), and the error of the final
attempt is returned: `retry` coincides with the spec-side run
`specFailingRun`, which performs exactly that schedule. -/
theorem retry_exhaustion_spec {α : Type} (task : EffM α) (N D : Nat)
    (hN : 1 ≤ N) (hfail : AlwaysFails task) (w : World) :
    retry task N D w = specFailingRun task D N w := by
  obtain ⟨n, rfl⟩ : ∃ n, N = n + 1 := ⟨N - 1, by omega⟩
  clear hN
  induction n generalizing w with
  | zero =>
    have hw := hfail w
    rcases htask : task w with ⟨r, w2⟩
    rw [htask] at hw
    cases r with
    | ok a => exact absurd hw (by simp [Outcome.isErr])
    | panicked m => exact absurd hw (by simp [Outcome.isErr])
    | err e =>
      show retryGo task D 1 w = task w
      rw [retryGo.eq_2]
      simp only [htask]
  | succ n ih =>
    have hw := hfail w
    rcases htask : task w with ⟨r, w2⟩
    rw [htask] at hw
    cases r with
    | ok a => exact absurd hw (by simp [Outcome.isErr])
    | panicked m => exact absurd hw (by simp [Outcome.isErr])
    | err e =>
      show retryGo task D (n + 1 + 1) w = specFailingRun task D (n + 1 + 1) w
      have lhs : retryGo task D (n + 1 + 1) w
          = retryGo task D (n + 1) (w2 ++ [Event.sleep D]) := by
        rw [retryGo.eq_2]
        simp only [htask]
      have rhs : specFailingRun task D (n + 1 + 1) w
          = specFailingRun task D (n + 1) (w2 ++ [Event.sleep D]) := by
        rw [specFailingRun.eq_3]
        simp only [htask]
      rw [lhs, rhs]
      exact ih (w2 ++ [Event.sleep D])

/-- A concrete always-failing action: one driver event per call, always an
error. -/
def witnessFailTask : EffM Unit := fun w =>
  (Outcome.err (RustError.strErr "boom"), w ++ [Event.navigate "u"])

/-- Witness for C2: three attempts with delay 2 on a concrete always-failing
action — three invocations, two full sleeps, final error returned. -/
theorem retry_exhaustion_spec_witness :
    (1 ≤ 3 ∧ AlwaysFails witnessFailTask) ∧
    retry witnessFailTask 3 2 [] = specFailingRun witnessFailTask 2 3 [] ∧
    retry witnessFailTask 3 2 []
      = (Outcome.err (RustError.strErr "boom"),
          [Event.navigate "u", Event.sleep 2, Event.navigate "u", Event.sleep 2,
            Event.navigate "u"]) :=
  ⟨⟨by omega, fun _ => rfl⟩,
    retry_exhaustion_spec witnessFailTask 3 2 (by omega) (fun _ => rfl) [],
    rfl⟩

/-- Claim C3: a zero attempt budget fails immediately with the generic
exhaustion error: the task is never invoked (the result does not depend on
it and the trace is returned unchanged) and no sleep happens. -/
theorem retry_zero_attempts {α : Type} (task : EffM α) (D : Nat) (w : World) :
    retry task 0 D w = (Outcome.err (RustError.strErr retryExhaustedMsg), w) := rfl

/-- Claim C1 (amended): resolving a name that is not a key of the selector
registry panics (`unwrap` on `None`) before any element wait, driver call or
retry sleep: the trace is returned unchanged and the lookup is not
retried. -/
theorem get_dom_unregistered_panics (d : Driver) (dom_defs : List (String × String))
    (target : String) (w : World) (h : hashMapGet dom_defs target = none) :
    ScrapingWrapper.get_dom d dom_defs target w = (Outcome.panicked panicUnwrapMsg, w) := by
  apply retryGo_panic
  simp [EffM.bind, unwrapOpt, h]

/-- A driver used only to probe resolution of unregistered names; its element
waits always fail, every other primitive succeeds. -/
def probeDriver : Driver where
  navigate := fun _ _ => Except.ok ()
  waitUntilNavigated := fun _ => Except.ok ()
  waitForElement := fun _ _ => Except.error (RustError.strErr "nf")
  waitForXPath := fun _ _ => Except.error (RustError.strErr "nf")
  scrollIntoView := fun _ _ => Except.ok ()
  clickElem := fun _ _ => Except.ok ()
  typeInto := fun _ _ _ => Except.ok ()
  innerText := fun _ _ => Except.ok "t"

/-- Claim C1 counterexample: resolving the unregistered name "missing" in an
empty registry does not produce an error return at all (the run panics on
`unwrap`), so it does not fail with a LookupError as the claim states. -/
theorem get_dom_unregistered_no_error :
    (ScrapingWrapper.get_dom probeDriver [] "missing" []).1.isErr = false := rfl

/-- Witness for the amended C1 at a concrete empty registry. -/
theorem get_dom_unregistered_panics_witness :
    hashMapGet [] "missing" = none ∧
    ScrapingWrapper.get_dom probeDriver [] "missing" []
      = (Outcome.panicked panicUnwrapMsg, []) :=
  ⟨rfl, get_dom_unregistered_panics probeDriver [] "missing" [] rfl⟩

lemma EffM.bind_assoc {α β γ : Type} (x : EffM α) (f : α → EffM β) (g : β → EffM γ)
    (w : World) :
    EffM.bind (EffM.bind x f) g w = EffM.bind x (fun a => EffM.bind (f a) g) w := by
  rcases hx : x w with ⟨r, w2⟩
  cases r with
  | ok a => simp [EffM.bind, hx]
  | err e => simp [EffM.bind, hx]
  | panicked m => simp [EffM.bind, hx]

/-- Claim C5: a `Fill` whose content is absent is a silent no-op — the run
continues with the rest of the sequence from the unchanged trace (so no
element resolution, no driver call, no sleep and no error happen for it);
a `Fill` with present content resolves the target through the registry
(`get_dom`) and then runs the type-text primitive under `retry(5, 2)`. -/
theorem operate_fill_semantics (d : Driver) (dom_defs : List (String × String))
    (target : String) (rest : List Operation) (w : World) :
    ScrapingWrapper.operate d dom_defs
        ({ method := OperationMethod.Fill, target := target, content := none } :: rest) w
      = ScrapingWrapper.operate d dom_defs rest w ∧
    ∀ c, ScrapingWrapper.operate d dom_defs
        ({ method := OperationMethod.Fill, target := target, content := some c } :: rest) w
      = EffM.bind (ScrapingWrapper.get_dom d dom_defs target) (fun element =>
          EffM.bind (retry (prim (Event.typeInto element c) (d.typeInto element c)) 5 2)
            (fun _ => ScrapingWrapper.operate d dom_defs rest)) w := by
  constructor
  · rfl
  · intro c
    exact EffM.bind_assoc (ScrapingWrapper.get_dom d dom_defs target)
      (fun element => ScrapingWrapper.fill_textbox d element c)
      (fun _ => ScrapingWrapper.operate d dom_defs rest) w

/-- Claim C7: a click that succeeds is followed by a fixed one-second settle
sleep and then an unconditional block on the load-completion signal before
`click` returns (the signal wait happens on every successful click, whether
or not a navigation was triggered); the whole click-settle-wait action is one
retried task with policy (5 attempts, 2s delay), so when the navigation wait
fails on every attempt the click primitive itself is re-run five times; in
`operate`, a `Click` operation first resolves its target through the
registry and then runs `click`. -/
theorem click_settle_and_wait (d : Driver) (element : Nat) :
    (∀ w, d.clickElem element w.length = Except.ok () →
      d.waitUntilNavigated (w.length + 2) = Except.ok () →
      ScrapingWrapper.click d element w
        = (Outcome.ok (),
            w ++ [Event.clickElem element, Event.sleep 1, Event.waitUntilNavigated])) ∧
    (∀ e w, (∀ t, d.clickElem element t = Except.ok ()) →
      (∀ t, d.waitUntilNavigated t = Except.error e) →
      ScrapingWrapper.click d element w
        = (Outcome.err e,
            w ++ constFailTrace
              [Event.clickElem element, Event.sleep 1, Event.waitUntilNavigated] 2 5)) ∧
    (∀ dom_defs target rest w,
      ScrapingWrapper.operate d dom_defs
          ({ method := OperationMethod.Click, target := target, content := none } :: rest) w
        = EffM.bind (ScrapingWrapper.get_dom d dom_defs target) (fun el =>
            EffM.bind (ScrapingWrapper.click d el) (fun _ =>
              ScrapingWrapper.operate d dom_defs rest)) w) := by
  refine ⟨?_, ?_, ?_⟩
  · intro w hclick hnav
    have hnav2 : d.waitUntilNavigated (w.length + 1 + 1) = Except.ok () := by
      have h12 : w.length + 1 + 1 = w.length + 2 := by omega
      rw [h12]
      exact hnav
    apply retryGo_first_ok
    simp [EffM.bind, prim, sleepEff, hclick, hnav2, List.append_assoc]
  · intro e w hclick hnav
    have htask : ∀ w2, (EffM.bind (prim (Event.clickElem element) (d.clickElem element))
        (fun _ => EffM.bind (sleepEff 1) (fun _ =>
          prim Event.waitUntilNavigated d.waitUntilNavigated))) w2
        = (Outcome.err e,
            w2 ++ [Event.clickElem element, Event.sleep 1, Event.waitUntilNavigated]) := by
      intro w2
      simp [EffM.bind, prim, sleepEff, hclick, hnav, List.append_assoc]
    exact retryGo_const_err _ e _ 2 htask 4 w
  · intro dom_defs target rest w
    exact EffM.bind_assoc (ScrapingWrapper.get_dom d dom_defs target)
      (fun el => ScrapingWrapper.click d el)
      (fun _ => ScrapingWrapper.operate d dom_defs rest) w

/-- A driver whose clicks and navigation waits always succeed. -/
def clickOkDriver : Driver where
  navigate := fun _ _ => Except.ok ()
  waitUntilNavigated := fun _ => Except.ok ()
  waitForElement := fun _ _ => Except.ok 7
  waitForXPath := fun _ _ => Except.ok 7
  scrollIntoView := fun _ _ => Except.ok ()
  clickElem := fun _ _ => Except.ok ()
  typeInto := fun _ _ _ => Except.ok ()
  innerText := fun _ _ => Except.ok "t"

/-- A driver whose clicks succeed but whose navigation wait always fails
(a click that never triggers a navigation signal). -/
def noNavDriver : Driver where
  navigate := fun _ _ => Except.ok ()
  waitUntilNavigated := fun _ => Except.error (RustError.strErr "nav")
  waitForElement := fun _ _ => Except.ok 7
  waitForXPath := fun _ _ => Except.ok 7
  scrollIntoView := fun _ _ => Except.ok ()
  clickElem := fun _ _ => Except.ok ()
  typeInto := fun _ _ _ => Except.ok ()
  innerText := fun _ _ => Except.ok "t"

/-- Witness for C7: one successful click (click, settle sleep, navigation
wait), and one whose navigation signal never comes (five click attempts,
error of the final attempt). -/
theorem click_settle_and_wait_witness :
    ScrapingWrapper.click clickOkDriver 7 []
      = (Outcome.ok (), [Event.clickElem 7, Event.sleep 1, Event.waitUntilNavigated]) ∧
    ScrapingWrapper.click noNavDriver 7 []
      = (Outcome.err (RustError.strErr "nav"),
          constFailTrace [Event.clickElem 7, Event.sleep 1, Event.waitUntilNavigated] 2 5) :=
  ⟨(click_settle_and_wait clickOkDriver 7).1 [] rfl rfl,
    (click_settle_and_wait noNavDriver 7).2.1 (RustError.strErr "nav") []
      (fun _ => rfl) (fun _ => rfl)⟩

/-- `true` exactly on element-wait driver calls. -/
def isWaitForElement : Event → Bool
  | Event.waitForElement _ _ => true
  | _ => false

/-- Claim C10: for a registered target whose element never appears,
`get_inner_text` (an outer `retry(5, 2)` around `get_dom`, which is itself a
`retry(5, 2)` around the element wait) performs 25 element-wait driver
calls before returning the error — the per-interaction retry policy is
compounded, not applied once. -/
theorem get_inner_text_compounds_retry (d : Driver) (dom_defs : List (String × String))
    (target sel : String) (e : RustError) (w : World)
    (hsel : hashMapGet dom_defs target = some sel)
    (hwait : ∀ t, d.waitForElement sel t = Except.error e) :
    ScrapingWrapper.get_inner_text d dom_defs target w
      = (Outcome.err e,
          w ++ constFailTrace (constFailTrace [Event.waitForElement sel 1] 2 5) 2 5) ∧
    List.countP isWaitForElement
        (constFailTrace (constFailTrace [Event.waitForElement sel 1] 2 5) 2 5) = 25 := by
  have hinner : ∀ w2, (EffM.bind (unwrapOpt (hashMapGet dom_defs target)) (fun selector =>
      EffM.bind (prim (Event.waitForElement selector 1) (d.waitForElement selector))
        (fun element =>
          EffM.bind (prim (Event.scrollIntoView element) (d.scrollIntoView element)) (fun _ =>
            EffM.pure element)))) w2
      = (Outcome.err e, w2 ++ [Event.waitForElement sel 1]) := by
    intro w2
    simp [EffM.bind, unwrapOpt, prim, hsel, hwait]
  have hgd : ∀ w2, ScrapingWrapper.get_dom d dom_defs target w2
      = (Outcome.err e, w2 ++ constFailTrace [Event.waitForElement sel 1] 2 5) :=
    fun w2 => retryGo_const_err _ e _ 2 hinner 4 w2
  have houter : ∀ w2, (EffM.bind (ScrapingWrapper.get_dom d dom_defs target) (fun element =>
      prim (Event.innerTextCall element) (d.innerText element))) w2
      = (Outcome.err e, w2 ++ constFailTrace [Event.waitForElement sel 1] 2 5) := by
    intro w2
    simp [EffM.bind, hgd w2]
  exact ⟨retryGo_const_err _ e _ 2 houter 4 w, rfl⟩

/-- Witness for C10: a one-entry registry and a driver whose element wait
always fails — 25 element waits, then the error. -/
theorem get_inner_text_compounds_retry_witness :
    hashMapGet [("t", "sel")] "t" = some "sel" ∧
    ScrapingWrapper.get_inner_text probeDriver [("t", "sel")] "t" []
      = (Outcome.err (RustError.strErr "nf"),
          constFailTrace (constFailTrace [Event.waitForElement "sel" 1] 2 5) 2 5) :=
  ⟨rfl,
    (get_inner_text_compounds_retry probeDriver [("t", "sel")] "t" "sel"
      (RustError.strErr "nf") [] rfl (fun _ => rfl)).1⟩

lemma EffM.bind_ok {α β : Type} {x : EffM α} {a : α} {w w2 : World} (f : α → EffM β)
    (h : x w = (Outcome.ok a, w2)) : EffM.bind x f w = f a w2 := by
  simp [EffM.bind, h]

lemma EffM.bind_err {α β : Type} {x : EffM α} {e : RustError} {w w2 : World} (f : α → EffM β)
    (h : x w = (Outcome.err e, w2)) : EffM.bind x f w = (Outcome.err e, w2) := by
  simp [EffM.bind, h]

/-- A computation only ever appends to the trace: nothing already performed
is rolled back. -/
def TraceMono {α : Type} (m : EffM α) : Prop := ∀ w, ∃ t, (m w).2 = w ++ t

lemma traceMono_pure {α : Type} (a : α) : TraceMono (EffM.pure a) :=
  fun w => ⟨[], by simp [EffM.pure]⟩

lemma traceMono_prim {α : Type} (ev : Event) (res : Nat → Except RustError α) :
    TraceMono (prim ev res) := by
  intro w
  refine ⟨[ev], ?_⟩
  cases h : res w.length <;> simp [prim, h]

lemma traceMono_sleepEff (secs : Nat) : TraceMono (sleepEff secs) :=
  fun _ => ⟨[Event.sleep secs], rfl⟩

lemma traceMono_unwrapOpt {α : Type} (o : Option α) : TraceMono (unwrapOpt o) := by
  cases o <;> exact fun w => ⟨[], by simp [unwrapOpt]⟩

lemma traceMono_bind {α β : Type} {x : EffM α} {f : α → EffM β}
    (hx : TraceMono x) (hf : ∀ a, TraceMono (f a)) : TraceMono (EffM.bind x f) := by
  intro w
  rcases hw : x w with ⟨r, w2⟩
  obtain ⟨t, ht⟩ := hx w
  rw [hw] at ht
  cases r with
  | ok a =>
    obtain ⟨t2, ht2⟩ := hf a w2
    have ht3 : w2 = w ++ t := ht
    refine ⟨t ++ t2, ?_⟩
    show (EffM.bind x f w).2 = w ++ (t ++ t2)
    unfold EffM.bind
    rw [hw]
    show (f a w2).2 = w ++ (t ++ t2)
    rw [ht2, ht3, List.append_assoc]
  | err e =>
    refine ⟨t, ?_⟩
    show (EffM.bind x f w).2 = w ++ t
    unfold EffM.bind
    rw [hw]
    exact ht
  | panicked m =>
    refine ⟨t, ?_⟩
    show (EffM.bind x f w).2 = w ++ t
    unfold EffM.bind
    rw [hw]
    exact ht

lemma traceMono_retryGo {α : Type} {task : EffM α} (h : TraceMono task) (delay : Nat) :
    ∀ n, TraceMono (retryGo task delay n) := by
  intro n
  induction n with
  | zero => exact fun w => ⟨[], by simp [retryGo]⟩
  | succ n ih =>
    intro w
    rcases hw : task w with ⟨r, w2⟩
    obtain ⟨t, ht⟩ := h w
    rw [hw] at ht
    cases r with
    | ok a =>
      refine ⟨t, ?_⟩
      rw [retryGo.eq_2]
      simp only [hw]
      exact ht
    | panicked m =>
      refine ⟨t, ?_⟩
      rw [retryGo.eq_2]
      simp only [hw]
      exact ht
    | err e =>
      cases n with
      | zero =>
        refine ⟨t, ?_⟩
        rw [retryGo.eq_2]
        simp only [hw]
        exact ht
      | succ n2 =>
        obtain ⟨t2, ht2⟩ := ih (w2 ++ [Event.sleep delay])
        have ht3 : w2 = w ++ t := ht
        refine ⟨t ++ [Event.sleep delay] ++ t2, ?_⟩
        rw [retryGo.eq_2]
        simp only [hw]
        rw [ht2, ht3]
        simp [List.append_assoc]

lemma traceMono_go (d : Driver) (url : String) : TraceMono (ScrapingWrapper.go d url) :=
  traceMono_retryGo
    (traceMono_bind (traceMono_prim _ _) (fun _ => traceMono_prim _ _)) 2 5

lemma traceMono_get_dom (d : Driver) (dom_defs : List (String × String)) (target : String) :
    TraceMono (ScrapingWrapper.get_dom d dom_defs target) :=
  traceMono_retryGo
    (traceMono_bind (traceMono_unwrapOpt _) (fun _ =>
      traceMono_bind (traceMono_prim _ _) (fun _ =>
        traceMono_bind (traceMono_prim _ _) (fun _ => traceMono_pure _)))) 2 5

lemma traceMono_click (d : Driver) (element : Nat) :
    TraceMono (ScrapingWrapper.click d element) :=
  traceMono_retryGo
    (traceMono_bind (traceMono_prim _ _) (fun _ =>
      traceMono_bind (traceMono_sleepEff 1) (fun _ => traceMono_prim _ _))) 2 5

lemma traceMono_fill_textbox (d : Driver) (element : Nat) (content : String) :
    TraceMono (ScrapingWrapper.fill_textbox d element content) :=
  traceMono_retryGo (traceMono_prim _ _) 2 5

lemma traceMono_execOp (d : Driver) (dom_defs : List (String × String)) (op : Operation) :
    TraceMono (ScrapingWrapper.execOp d dom_defs op) := by
  rcases op with ⟨m, target, content⟩
  cases m with
  | Go => exact traceMono_go d target
  | Click =>
    exact traceMono_bind (traceMono_get_dom d dom_defs target)
      (fun el => traceMono_click d el)
  | Fill =>
    cases content with
    | some c =>
      exact traceMono_bind (traceMono_get_dom d dom_defs target)
        (fun el => traceMono_fill_textbox d el c)
    | none => exact traceMono_pure ()

lemma operate_append (d : Driver) (dom_defs : List (String × String))
    (xs ys : List Operation) (w : World) :
    ScrapingWrapper.operate d dom_defs (xs ++ ys) w
      = EffM.bind (ScrapingWrapper.operate d dom_defs xs)
          (fun _ => ScrapingWrapper.operate d dom_defs ys) w := by
  induction xs generalizing w with
  | nil => rfl
  | cons op rest ih =>
    have key : EffM.bind (ScrapingWrapper.execOp d dom_defs op)
        (fun _ => ScrapingWrapper.operate d dom_defs (rest ++ ys)) w
      = EffM.bind (EffM.bind (ScrapingWrapper.execOp d dom_defs op)
          (fun _ => ScrapingWrapper.operate d dom_defs rest))
          (fun _ => ScrapingWrapper.operate d dom_defs ys) w := by
      rw [EffM.bind_assoc]
      rcases hx : ScrapingWrapper.execOp d dom_defs op w with ⟨r, w2⟩
      cases r with
      | ok a =>
        rw [EffM.bind_ok _ hx, EffM.bind_ok _ hx]
        exact ih w2
      | err e => rw [EffM.bind_err _ hx, EffM.bind_err _ hx]
      | panicked m => simp [EffM.bind, hx]
    exact key

/-- Claim C4: `operate` runs the operations in order and halts at the first
operation whose (retried) action fails: the caller receives exactly that
operation's error and the trace at that point, the operations after the
failing one contribute nothing (the result does not depend on them), and
nothing done by the already-applied prefix is rolled back — the prefix's
trace survives as a prefix of the final trace. -/
theorem operate_halts_at_first_failure (d : Driver) (dom_defs : List (String × String))
    (pre : List Operation) (op : Operation) (post : List Operation)
    (w w1 w2 : World) (e : RustError)
    (hpre : ScrapingWrapper.operate d dom_defs pre w = (Outcome.ok (), w1))
    (hop : ScrapingWrapper.execOp d dom_defs op w1 = (Outcome.err e, w2)) :
    ScrapingWrapper.operate d dom_defs (pre ++ op :: post) w = (Outcome.err e, w2) ∧
    ∃ t, w2 = w1 ++ t := by
  constructor
  · rw [operate_append, EffM.bind_ok _ hpre]
    show EffM.bind (ScrapingWrapper.execOp d dom_defs op)
        (fun _ => ScrapingWrapper.operate d dom_defs post) w1 = (Outcome.err e, w2)
    rw [EffM.bind_err _ hop]
  · obtain ⟨t, ht⟩ := traceMono_execOp d dom_defs op w1
    rw [hop] at ht
    exact ⟨t, ht⟩

/-- Witness for C4: a navigation that succeeds, then a `Fill` whose element
never appears — the sequence stops there with that error, the third
operation never contributes, and the navigation's trace survives. -/
theorem operate_halts_at_first_failure_witness :
    ScrapingWrapper.operate probeDriver [("q", "sel")]
        ([{ method := OperationMethod.Go, target := "u", content := none }] ++
          { method := OperationMethod.Fill, target := "q", content := some "x" } ::
            [{ method := OperationMethod.Go, target := "v", content := none }]) []
      = (Outcome.err (RustError.strErr "nf"),
          [Event.navigate "u", Event.waitUntilNavigated]
            ++ constFailTrace [Event.waitForElement "sel" 1] 2 5) ∧
    ∃ t, [Event.navigate "u", Event.waitUntilNavigated]
            ++ constFailTrace [Event.waitForElement "sel" 1] 2 5
        = [Event.navigate "u", Event.waitUntilNavigated] ++ t :=
  operate_halts_at_first_failure probeDriver [("q", "sel")]
    [{ method := OperationMethod.Go, target := "u", content := none }]
    { method := OperationMethod.Fill, target := "q", content := some "x" }
    [{ method := OperationMethod.Go, target := "v", content := none }]
    [] [Event.navigate "u", Event.waitUntilNavigated]
    ([Event.navigate "u", Event.waitUntilNavigated]
      ++ constFailTrace [Event.waitForElement "sel" 1] 2 5)
    (RustError.strErr "nf") rfl rfl

/-- Modelled from the spec: the browser's evaluation of the locator
`(//TAG[normalize-space(text())=TEXT])[INDEX]` — the matches are the
document's nodes in document order whose tag matches TAG (`*` matches every
tag) and whose normalized text content equals TEXT.  A page is given as a
list of (element handle, tag, normalized text) triples in document order. -/
def specTextMatches (page : List (Nat × String × String)) (tag text : String) : List Nat :=
  (page.filter (fun n => (tag == "*" || n.2.1 == tag) && n.2.2 == text)).map (fun n => n.1)

/-- Modelled from the spec: the node selected by the locator is the one at
the 1-based INDEX among the matches in document order; no node is selected
when the index is below 1 or exceeds the number of matches. -/
def specXPathSelect (page : List (Nat × String × String)) (tag text : String)
    (index : Int) : Option Nat :=
  if index < 1 then none
  else (specTextMatches page tag text).get? (index - 1).toNat

/-- Claim C6: in `get_dom_by_text` an absent tag defaults to "*" and an
absent index defaults to 1; against a driver whose XPath wait implements the
spec's document-order semantics of the built locator, the selected node at
the given 1-based position is returned (after the wait and the scroll), and
when no node is selected — in particular whenever the index exceeds the
number of matches — every one of the 5 attempts fails and the
element-not-found error of the final attempt is returned after the 4
inter-attempt sleeps of 2 seconds. -/
theorem get_dom_by_text_spec (d : Driver) (page : List (Nat × String × String))
    (text tagv : String) (idxv : Int) (nf : RustError)
    (hdrv : ∀ t, d.waitForXPath (buildXPath tagv text idxv) t
      = match specXPathSelect page tagv text idxv with
        | some el => Except.ok el
        | none => Except.error nf)
    (hscroll : ∀ el t, d.scrollIntoView el t = Except.ok ()) :
    (∀ w, ScrapingWrapper.get_dom_by_text d text none none w
      = ScrapingWrapper.get_dom_by_text d text (some "*") (some 1) w) ∧
    (∀ el w, specXPathSelect page tagv text idxv = some el →
      ScrapingWrapper.get_dom_by_text d text (some tagv) (some idxv) w
        = (Outcome.ok el,
            w ++ [Event.waitForXPath (buildXPath tagv text idxv) 1,
              Event.scrollIntoView el])) ∧
    (∀ w, specXPathSelect page tagv text idxv = none →
      ScrapingWrapper.get_dom_by_text d text (some tagv) (some idxv) w
        = (Outcome.err nf,
            w ++ constFailTrace [Event.waitForXPath (buildXPath tagv text idxv) 1] 2 5)) ∧
    (((specTextMatches page tagv text).length : Int) < idxv →
      specXPathSelect page tagv text idxv = none) := by
  refine ⟨?_, ?_, ?_, ?_⟩
  · intro w
    rfl
  · intro el w hsome
    apply retryGo_first_ok
    simp [EffM.bind, prim, EffM.pure, hdrv, hsome, hscroll, List.append_assoc]
  · intro w hnone
    have htask : ∀ w2,
        (fun w3 =>
          (EffM.bind (prim (Event.waitForXPath (buildXPath tagv text idxv) 1)
              (d.waitForXPath (buildXPath tagv text idxv))) (fun element =>
            EffM.bind (prim (Event.scrollIntoView element) (d.scrollIntoView element))
              (fun _ => EffM.pure element))) w3) w2
        = (Outcome.err nf, w2 ++ [Event.waitForXPath (buildXPath tagv text idxv) 1]) := by
      intro w2
      simp [EffM.bind, prim, hdrv, hnone]
    exact retryGo_const_err _ nf _ 2 htask 4 w
  · intro hlen
    unfold specXPathSelect
    by_cases hlt : idxv < 1
    · simp [hlt]
    · simp only [hlt, if_false]
      apply List.get?_eq_none.mpr
      have h0 : (0 : Int) ≤ idxv - 1 := by omega
      have h1 := Int.toNat_of_nonneg h0
      omega

/-- The page of the spec's example: three h3 nodes whose normalized text is
"Result". -/
def resultPage : List (Nat × String × String) :=
  [(1, "h3", "Result"), (2, "h3", "Result"), (3, "h3", "Result")]

/-- A driver whose XPath wait always finds element 2. -/
def xpathHitDriver : Driver where
  navigate := fun _ _ => Except.ok ()
  waitUntilNavigated := fun _ => Except.ok ()
  waitForElement := fun _ _ => Except.ok 2
  waitForXPath := fun _ _ => Except.ok 2
  scrollIntoView := fun _ _ => Except.ok ()
  clickElem := fun _ _ => Except.ok ()
  typeInto := fun _ _ _ => Except.ok ()
  innerText := fun _ _ => Except.ok "t"

/-- A driver whose XPath wait never finds a node. -/
def xpathMissDriver : Driver where
  navigate := fun _ _ => Except.ok ()
  waitUntilNavigated := fun _ => Except.ok ()
  waitForElement := fun _ _ => Except.error (RustError.strErr "xnf")
  waitForXPath := fun _ _ => Except.error (RustError.strErr "xnf")
  scrollIntoView := fun _ _ => Except.ok ()
  clickElem := fun _ _ => Except.ok ()
  typeInto := fun _ _ _ => Except.ok ()
  innerText := fun _ _ => Except.ok "t"

/-- Witness for C6: on the three-match page, index 2 returns the second
match; index 5 exceeds the matches and fails after the retry budget. -/
theorem get_dom_by_text_spec_witness :
    specXPathSelect resultPage "h3" "Result" 2 = some 2 ∧
    ScrapingWrapper.get_dom_by_text xpathHitDriver "Result" (some "h3") (some 2) []
      = (Outcome.ok 2,
          [Event.waitForXPath (buildXPath "h3" "Result" 2) 1, Event.scrollIntoView 2]) ∧
    ScrapingWrapper.get_dom_by_text xpathMissDriver "Result" (some "h3") (some 5) []
      = (Outcome.err (RustError.strErr "xnf"),
          constFailTrace [Event.waitForXPath (buildXPath "h3" "Result" 5) 1] 2 5) :=
  ⟨rfl,
    (get_dom_by_text_spec xpathHitDriver resultPage "Result" "h3" 2
      (RustError.strErr "xnf") (fun _ => rfl) (fun _ _ => rfl)).2.1 2 [] rfl,
    (get_dom_by_text_spec xpathMissDriver resultPage "Result" "h3" 5
      (RustError.strErr "xnf") (fun _ => rfl) (fun _ _ => rfl)).2.2.1 [] rfl⟩

/-- JSON values as parsed by serde_json. -/
inductive Json where
  | null : Json
  | bool : Bool → Json
  | num : Int → Json
  | str : String → Json
  | arr : List Json → Json
  | obj : List (String × Json) → Json

/-- First field with the given key in a JSON object's field list; `null`
when absent. -/
def jLookupField : List (String × Json) → String → Json
  | [], _ => Json.null
  | (k, v) :: rest, key => if k = key then v else jLookupField rest key

/-- `value[key]` for serde_json values: field of an object, `Null` when the
key is absent or the value is not an object. -/
def jIndex : Json → String → Json
  | Json.obj fields, key => jLookupField fields key
  | _, _ => Json.null

/-- `value == "s"` for serde_json values: true exactly on the equal
string. -/
def jEqStr : Json → String → Bool
  | Json.str t, s => t == s
  | _, _ => false

/-- `Value::as_str`. -/
def jAsStr : Json → Option String
  | Json.str s => some s
  | _ => none

/-- `Value::as_array`. -/
def jAsArray : Json → Option (List Json)
  | Json.arr xs => some xs
  | _ => none

/-- `ScrapeOption` (src/scraping_wrapper.rs:70-76). -/
structure ScrapeOption where
  dom_defs : Option (List (String × String))
  headless : Option Bool
  window_size : Option (Nat × Nat)
  port_number : Option Nat

/-- External collaborators of the constructor: the blocking HTTP client, the
JSON parser, `Browser::connect`, `Browser::new` (launch), and the browser's
tab enumeration.  Browser handles and tabs are numeric. -/
structure ConnEnv where
  httpGet : String → Except RustError String
  parseJson : String → Except RustError Json
  connect : String → Except RustError Nat
  launch : Bool → Option (Nat × Nat) → Except RustError Nat
  tabsOf : Nat → List Nat

/-- The remote-debugging discovery endpoint for a port
(src/scraping_wrapper.rs:129-130). -/
def discoveryUrl (port : Nat) : String :=
  "http://localhost:" ++ toString port ++ "/json"

/-- Error message when the discovery response is not a JSON array. -/
def notArrayMsg : String := "ブラウザ情報が配列ではありません"

/-- Error message when no websocket URL for a descriptor of type "page" is
found. -/
def noPageWsMsg : String :=
  "タイプ " ++ squote ++ "page" ++ squote ++ " のWebSocket URLが見つかりません"

/-- The browser acquisition of `ScrapingWrapper::new`
(src/scraping_wrapper.rs:127-155): when a port number is supplied, GET the
discovery endpoint, parse the body, require a JSON array, take the first
descriptor whose "type" equals "page", require its websocket debugger URL as
a string, and connect to it; otherwise launch a browser (headless by
default) with the configured window size. -/
def acquireBrowser (env : ConnEnv) (opt : ScrapeOption) : Except RustError Nat :=
  match opt.port_number with
  | some port =>
    match env.httpGet (discoveryUrl port) with
    | Except.error e => Except.error e
    | Except.ok body =>
      match env.parseJson body with
      | Except.error e => Except.error e
      | Except.ok browser_info =>
        match jAsArray browser_info with
        | none => Except.error (RustError.strErr notArrayMsg)
        | some infos =>
          match (infos.find? (fun info => jEqStr (jIndex info "type") "page")).bind
              (fun info => jAsStr (jIndex info "webSocketDebuggerUrl")) with
          | none => Except.error (RustError.strErr noPageWsMsg)
          | some websocket_url => env.connect websocket_url
  | none => env.launch (opt.headless.getD true) opt.window_size

/-- The wrapper state (src/scraping_wrapper.rs:79-84). -/
structure ScrapingWrapper where
  browser : Nat
  tab : Nat
  dom_defs : List (String × String)

/-- `ScrapingWrapper::new` (src/scraping_wrapper.rs:124-164): acquire a
browser, then `get_tabs()` and `.last().unwrap()` — the unwrap panics when
the tab enumeration is empty. -/
def ScrapingWrapper.new (env : ConnEnv) (opt : ScrapeOption) : Outcome ScrapingWrapper :=
  match acquireBrowser env opt with
  | Except.error e => Outcome.err e
  | Except.ok browser =>
    match (env.tabsOf browser).getLast? with
    | none => Outcome.panicked panicUnwrapMsg
    | some tab =>
      Outcome.ok { browser := browser, tab := tab, dom_defs := opt.dom_defs.getD [] }

/-- A descriptor of type "page" that carries a websocket debugger address
(the spec's failure condition for attach mode is that no such descriptor
exists). -/
def hasPageWs (info : Json) : Bool :=
  jEqStr (jIndex info "type") "page"
    && (jAsStr (jIndex info "webSocketDebuggerUrl")).isSome

/-- Claim C8: with an attach port configured, construction issues the HTTP
GET on the discovery endpoint of that port and: an HTTP failure propagates;
a parse failure propagates; a response that is not a JSON array fails; an
array in which no descriptor of type "page" with a websocket address exists
fails; and when the first descriptor of type "page" carries a websocket
address, the construction connects to exactly that address. -/
theorem new_attach_mode (env : ConnEnv) (opt : ScrapeOption) (port : Nat)
    (hport : opt.port_number = some port) :
    (∀ e, env.httpGet (discoveryUrl port) = Except.error e →
      acquireBrowser env opt = Except.error e) ∧
    (∀ body e, env.httpGet (discoveryUrl port) = Except.ok body →
      env.parseJson body = Except.error e →
      acquireBrowser env opt = Except.error e) ∧
    (∀ body j, env.httpGet (discoveryUrl port) = Except.ok body →
      env.parseJson body = Except.ok j → jAsArray j = none →
      acquireBrowser env opt = Except.error (RustError.strErr notArrayMsg)) ∧
    (∀ body j infos, env.httpGet (discoveryUrl port) = Except.ok body →
      env.parseJson body = Except.ok j → jAsArray j = some infos →
      (∀ info ∈ infos, hasPageWs info = false) →
      acquireBrowser env opt = Except.error (RustError.strErr noPageWsMsg)) ∧
    (∀ body j infos info0 u, env.httpGet (discoveryUrl port) = Except.ok body →
      env.parseJson body = Except.ok j → jAsArray j = some infos →
      infos.find? (fun info => jEqStr (jIndex info "type") "page") = some info0 →
      jAsStr (jIndex info0 "webSocketDebuggerUrl") = some u →
      acquireBrowser env opt = env.connect u) := by
  refine ⟨?_, ?_, ?_, ?_, ?_⟩
  · intro e hget
    simp [acquireBrowser, hport, hget]
  · intro body e hget hparse
    simp [acquireBrowser, hport, hget, hparse]
  · intro body j hget hparse harr
    simp [acquireBrowser, hport, hget, hparse, harr]
  · intro body j infos hget hparse harr hnone
    have hbind : (infos.find? (fun info => jEqStr (jIndex info "type") "page")).bind
        (fun info => jAsStr (jIndex info "webSocketDebuggerUrl")) = none := by
      cases hfind : infos.find? (fun info => jEqStr (jIndex info "type") "page") with
      | none => rfl
      | some info0 =>
        have hmem : info0 ∈ infos := List.mem_of_find?_eq_some hfind
        have htype := List.find?_some hfind
        have hws := hnone info0 hmem
        simp only [hasPageWs] at hws
        rw [show jEqStr (jIndex info0 "type") "page" = true from htype,
          Bool.true_and] at hws
        cases hstr : jAsStr (jIndex info0 "webSocketDebuggerUrl") with
        | none => exact hstr
        | some u =>
          rw [hstr] at hws
          simp at hws
    simp [acquireBrowser, hport, hget, hparse, harr, hbind]
  · intro body j infos info0 u hget hparse harr hfind hws
    simp [acquireBrowser, hport, hget, hparse, harr, hfind, Option.bind, hws]

/-- Claim C9: whenever browser acquisition succeeds — in launch mode as well
as attach mode — the active tab of the constructed wrapper is the last
element of the browser's tab enumeration; an empty tab enumeration makes
`new` panic (`unwrap` on `None`) instead of returning an error. -/
theorem new_tab_selection (env : ConnEnv) (opt : ScrapeOption) (browser : Nat)
    (hacq : acquireBrowser env opt = Except.ok browser) :
    (env.tabsOf browser = [] →
      ScrapingWrapper.new env opt = Outcome.panicked panicUnwrapMsg) ∧
    (∀ tab, (env.tabsOf browser).getLast? = some tab →
      ScrapingWrapper.new env opt
        = Outcome.ok (ScrapingWrapper.mk browser tab (opt.dom_defs.getD []))) := by
  constructor
  · intro hempty
    unfold ScrapingWrapper.new
    rw [hacq]
    show (match (env.tabsOf browser).getLast? with
      | none => Outcome.panicked panicUnwrapMsg
      | some tab => Outcome.ok (ScrapingWrapper.mk browser tab (opt.dom_defs.getD [])))
      = Outcome.panicked panicUnwrapMsg
    rw [hempty]
    rfl
  · intro tab hlast
    unfold ScrapingWrapper.new
    rw [hacq]
    show (match (env.tabsOf browser).getLast? with
      | none => Outcome.panicked panicUnwrapMsg
      | some tab2 => Outcome.ok (ScrapingWrapper.mk browser tab2 (opt.dom_defs.getD [])))
      = Outcome.ok (ScrapingWrapper.mk browser tab (opt.dom_defs.getD []))
    rw [hlast]

/-- The discovery response of the C8 witness: one non-page descriptor, then
a page descriptor with a websocket address. -/
def pageDescs : List Json :=
  [Json.obj [("type", Json.str "other")],
    Json.obj [("type", Json.str "page"), ("webSocketDebuggerUrl", Json.str "wsu")]]

/-- An environment that answers the discovery GET with `pageDescs` and whose
connect returns browser 7. -/
def attachEnv : ConnEnv where
  httpGet := fun _ => Except.ok "body"
  parseJson := fun _ => Except.ok (Json.arr pageDescs)
  connect := fun _ => Except.ok 7
  launch := fun _ _ => Except.ok 99
  tabsOf := fun _ => [1, 2]

/-- Attach-mode options: port 9222 supplied. -/
def attachOpt : ScrapeOption where
  dom_defs := none
  headless := none
  window_size := none
  port_number := some 9222

/-- Witness for C8: the environment above makes construction connect to the
websocket address of the first page descriptor. -/
theorem new_attach_mode_witness :
    acquireBrowser attachEnv attachOpt = Except.ok 7 :=
  ((new_attach_mode attachEnv attachOpt 9222 rfl).2.2.2.2 "body" (Json.arr pageDescs)
    pageDescs (Json.obj [("type", Json.str "page"), ("webSocketDebuggerUrl", Json.str "wsu")])
    "wsu" rfl rfl rfl rfl rfl).trans rfl

/-- A launch-mode environment whose browser reports tabs [3, 4]. -/
def launchEnv : ConnEnv where
  httpGet := fun _ => Except.error (RustError.strErr "no http")
  parseJson := fun _ => Except.error (RustError.strErr "no parse")
  connect := fun _ => Except.error (RustError.strErr "no connect")
  launch := fun _ _ => Except.ok 5
  tabsOf := fun _ => [3, 4]

/-- A launch-mode environment whose browser reports no tabs at all. -/
def emptyTabsEnv : ConnEnv where
  httpGet := fun _ => Except.error (RustError.strErr "no http")
  parseJson := fun _ => Except.error (RustError.strErr "no parse")
  connect := fun _ => Except.error (RustError.strErr "no connect")
  launch := fun _ _ => Except.ok 5
  tabsOf := fun _ => []

/-- Launch-mode options with a registry. -/
def launchOpt : ScrapeOption where
  dom_defs := some [("a", "b")]
  headless := some false
  window_size := none
  port_number := none

/-- Witness for C9: with tabs [3, 4] the active tab is 4 (the last); with an
empty tab enumeration the constructor panics. -/
theorem new_tab_selection_witness :
    ScrapingWrapper.new launchEnv launchOpt
      = Outcome.ok (ScrapingWrapper.mk 5 4 [("a", "b")]) ∧
    ScrapingWrapper.new emptyTabsEnv launchOpt = Outcome.panicked panicUnwrapMsg :=
  ⟨(new_tab_selection launchEnv launchOpt 5 rfl).2 4 rfl,
    (new_tab_selection emptyTabsEnv launchOpt 5 rfl).1 rfl⟩
